import Mathlib

/-!
Verification of the HPX stackful-coroutine substrate fragment
(`src/libs/coroutines/include/hpx/coroutines/detail/context_impl.hpp` and the
MPI `transform_mpi` helper in the same repository) against its
natural-language specification.

The header under scrutiny contains
  * the ContextImpl / ContextImplBase concept contract (a documented protocol
    for saving and restoring machine contexts via `swap_context`),
  * the preprocessor logic selecting exactly one `default_context_impl`
    backend per platform, and
  * (in the related-document section) the MPI request-callback helper
    `set_value_request_callback_helper`.
The concrete backend implementations (`context_linux_x86.hpp`,
`context_posix.hpp`, ...) and the coroutine object built on top of them are
not part of the visible fragment; where a claim depends on them, the model
below is built from the specification's words and is marked as such in its
doc comment.
-/

namespace HpxCoroutines

/-! ## Context handles and the switch protocol

A `ContextImplBase` value ("Context Handle") identifies a suspend point of
some execution flow.  `initialized` is the documented initialization flag;
`point` names the suspend point the handle refers to. -/

structure ContextImplBase where
  initialized : Bool
  point : Nat
deriving DecidableEq

/-- Modelled from the spec: the observable machine state of the
single-OS-thread switching world in which `swap_context` operates
(spec §4.2, §5; the backend implementations are not under `src/`).
`current` names the suspend point of the flow that is running right now,
`live` lists the suspend points that may currently be resumed into
(each one exists at most once in a real machine), and `nextPoint` is a
fresh supply of suspend-point names. -/
structure World where
  current : Nat
  live : List Nat
  nextPoint : Nat
deriving DecidableEq

/-- A handle can be used as the resume-into (`to`) target of a switch in
world `w` exactly when it is initialized and its suspend point is still
live. -/
def resumable (w : World) (h : ContextImplBase) : Bool :=
  h.initialized && decide (h.point ∈ w.live)

/-- All live suspend points of a world were drawn from the fresh supply. -/
def WorldWF (w : World) : Prop :=
  ∀ p ∈ w.live, p < w.nextPoint

instance (w : World) : Decidable (WorldWF w) := by
  unfold WorldWF; infer_instance

/-- Modelled from the spec: `swap_context(from, to)` per the contract of
`context_impl.hpp` lines 80-92 (the backend bodies are not under `src/`):
the caller's current machine state is saved into `from` — whose incoming
contents are irrelevant, it "may be an uninitialized ContextImplBase that
will be initialized by a swap_context" — and the state referenced by `to`
is restored.  Resuming into a handle that is uninitialized or whose suspend
point is no longer live is undefined behaviour, modelled as `none`.
The saved caller state becomes a fresh live suspend point and the point
resumed into stops being live (it is now running). -/
def swap_context (w : World) (fr toh : ContextImplBase) :
    Option (World × ContextImplBase) :=
  if resumable w toh then
    some ({ current := toh.point
          , live := w.nextPoint :: w.live.filter (fun p => p != toh.point)
          , nextPoint := w.nextPoint + 1 }
         , { initialized := true, point := w.nextPoint })
  else
    none

/-- From the source documentation as written (`context_impl.hpp` lines
70-71): "A default constructed ContextImplBase is in an initialized state."
A default-constructed handle has never had a machine state saved into it,
so it designates no live suspend point; we give it point `0` in a world
where no point is live. -/
def defaultConstructedHandle : ContextImplBase :=
  { initialized := true, point := 0 }

/-- A world in which no suspend point is live (nothing has ever been saved
by a `swap_context`). -/
def initialWorld : World :=
  { current := 0, live := [], nextPoint := 1 }

/-- A handle produced by converting an initialized ContextImpl
(`context_impl.hpp` line 72: "A ContextImpl is an initialized
ContextImplBase"): it is initialized and designates the implementation's
current suspend point. -/
def handleOfContextImpl (pt : Nat) : ContextImplBase :=
  { initialized := true, point := pt }

/-! ## ContextImpl construction -/

/-- Modelled from the spec: the platform-appropriate default stack size used
when the `stack_size` hint is unspecified ("typically hundreds of KB to a few
MB", spec §4.1); the config constant itself is not under `src/`. -/
def defaultStackSize : Nat := 1048576

/-- Stack allocation: a hint of `-1` ("unspecified") resolves to the
platform default instead of failing or truncating; a nonnegative hint is
honoured (`context_impl.hpp` lines 50-52: "The stack_size is only an hint.
If stack_size is -1 it should default to a sensible value"). -/
def allocateStack (stack_size : Int) : Nat :=
  if stack_size = -1 then defaultStackSize else stack_size.toNat

/-- Modelled from the spec: a constructed Context Implementation — it owns a
stack, holds the bound callable, and records whether the callable has been
entered yet (the constructor bodies are in backend headers not under
`src/`).  `context_impl.hpp` lines 42-56: the constructor binds `f` to the
context on its own stack; `f` is entered only when the context is first
activated with `swap_context`. -/
structure ContextImpl where
  callable : Nat → Nat
  stackSize : Nat
  entered : Bool

/-- The `ContextImpl(Functor f, std::ptrdiff_t stack_size)` constructor:
allocates the stack and binds `f` without running it. -/
def mkContextImpl (f : Nat → Nat) (stack_size : Int) : ContextImpl :=
  { callable := f
  , stackSize := allocateStack stack_size
  , entered := false }

/-- First activation of a context with `swap_context`: only now is the
bound callable entered (applied to the value passed into the context). -/
def activateFirst (ci : ContextImpl) (arg : Nat) : ContextImpl × Nat :=
  ({ ci with entered := true }, ci.callable arg)

/-! ## Backend selection (`default_context_impl`, lines 104-148) -/

/-- The preprocessor symbols and platform predicates that the backend
selection chain of `context_impl.hpp` tests. -/
structure PlatformConfig where
  have_generic_context : Bool
  have_fiber_based : Bool
  is_linux : Bool
  is_bgq : Bool
  is_powerpc : Bool
  is_s390x : Bool
  posix_version : Bool
deriving DecidableEq

/-- The four concrete context-implementation backends. -/
inductive Backend
  | genericContext
  | linuxX86
  | posixUcontext
  | windowsFibers
deriving DecidableEq, Fintype

/-- Outcome of preprocessing `context_impl.hpp`: either exactly one
backend is chosen as `default_context_impl`, or a `#error` fires. -/
inductive SelectResult
  | selected (b : Backend)
  | errorBothDefined
  | errorNoBackend
deriving DecidableEq

/-- The condition under which the preprocessor chain would take the branch
for backend `b` (the guard of the corresponding `#if`/`#elif`). -/
def backendAvailable (c : PlatformConfig) : Backend → Bool
  | Backend.genericContext => c.have_generic_context
  | Backend.linuxX86 =>
      c.is_linux && !c.is_bgq && !c.is_powerpc && !c.is_s390x
  | Backend.posixUcontext =>
      c.posix_version || c.is_bgq || c.is_powerpc || c.is_s390x
  | Backend.windowsFibers => c.have_fiber_based

/-- Some backend branch of the chain applies. -/
def anyBackendAvailable (c : PlatformConfig) : Bool :=
  backendAvailable c Backend.genericContext ||
  backendAvailable c Backend.linuxX86 ||
  backendAvailable c Backend.posixUcontext ||
  backendAvailable c Backend.windowsFibers

/-- The preprocessor logic of `context_impl.hpp` lines 104-148: first the
guard `#error` when both HPX_HAVE_GENERIC_CONTEXT_COROUTINES and
HPX_HAVE_FIBER_BASED_COROUTINES are defined, then the `#if`/`#elif` chain
choosing `default_context_impl`, ending in `#error No default_context_impl
available for this system`. -/
def select_default_context_impl (c : PlatformConfig) : SelectResult :=
  if c.have_generic_context && c.have_fiber_based then
    SelectResult.errorBothDefined
  else if backendAvailable c Backend.genericContext then
    SelectResult.selected Backend.genericContext
  else if backendAvailable c Backend.linuxX86 then
    SelectResult.selected Backend.linuxX86
  else if backendAvailable c Backend.posixUcontext then
    SelectResult.selected Backend.posixUcontext
  else if backendAvailable c Backend.windowsFibers then
    SelectResult.selected Backend.windowsFibers
  else
    SelectResult.errorNoBackend

/-! ## The coroutine state machine

The coroutine object itself is not part of the visible fragment; the model
below is built from spec §3 (status tag), §4.3 (operations and transitions)
and §4.4 (trampoline).  The user callable is abstracted by its observable
behaviour: the finite list of values it will yield, followed by its final
outcome — normal return, or a raised error payload captured by the
trampoline. -/

/-- The coroutine status tag of spec §3:
`{created, running, suspended, completed, failed}`. -/
inductive CoroStatus
  | created
  | running
  | suspended
  | completed
  | failed
deriving DecidableEq

/-- Modelled from the spec: a coroutine wraps one context plus an explicit
status tag; `pending` are the values the callable will still yield, and
`outcome` is `none` when it will finally return normally, `some e` when it
will raise the error payload `e`. -/
structure Coroutine where
  status : CoroStatus
  pending : List Nat
  outcome : Option Nat
deriving DecidableEq

/-- What a `resume()` call reports back to the resumer
(spec §6: `suspended | completed | failed(payload)`), or the fatal
precondition violation on protocol misuse (spec §7). -/
inductive ResumeResult
  | suspended (v : Nat)
  | completed
  | failed (e : Nat)
  | usage_error
deriving DecidableEq

/-- The `create(callable, stack_size_hint)` operation: a fresh coroutine in
state `created`, its callable abstracted by the yields/outcome it will
produce. -/
def mkCoroutine (vs : List Nat) (outcome : Option Nat) : Coroutine :=
  { status := CoroStatus.created, pending := vs, outcome := outcome }

/-- Modelled from the spec: `resume()` (spec §4.3).  Valid only from
`created` or `suspended`; it runs the coroutine until its next yield
(reporting `suspended v` and leaving the coroutine suspended), until the
callable returns normally (reporting `completed`, terminal), or until the
callable raises (the trampoline captures the payload, records `failed`,
and the payload is re-surfaced to this `resume()` call).  Calling it on a
coroutine already `running`, `completed` or `failed` is a fatal
precondition violation, rejected without side effects. -/
def resume (c : Coroutine) : ResumeResult × Coroutine :=
  match c.status with
  | CoroStatus.created | CoroStatus.suspended =>
    match c.pending with
    | v :: rest =>
        (ResumeResult.suspended v,
          { c with status := CoroStatus.suspended, pending := rest })
    | [] =>
        match c.outcome with
        | none =>
            (ResumeResult.completed, { c with status := CoroStatus.completed })
        | some e =>
            (ResumeResult.failed e, { c with status := CoroStatus.failed })
  | _ => (ResumeResult.usage_error, c)

/-- The coroutine state reached after one `resume()` call. -/
def stepCoroutine (c : Coroutine) : Coroutine := (resume c).2

/-- The coroutine state reached after `n` `resume()` calls. -/
def runResumes : Nat → Coroutine → Coroutine
  | 0, c => c
  | n + 1, c => runResumes n (stepCoroutine c)

/-- The list of results reported by `n` successive `resume()` calls. -/
def resumeTrace : Nat → Coroutine → List ResumeResult
  | 0, _ => []
  | n + 1, c => (resume c).1 :: resumeTrace n (stepCoroutine c)

end HpxCoroutines

namespace HpxMpi

/-! ## The MPI request-callback helper (`transform_mpi` detail namespace) -/

/-- The MPI success status code. -/
def MPI_SUCCESS : Int := 0

/-- The exception type wrapping a failed MPI status
(`mpi_exception(mpi_status)`). -/
structure mpi_exception where
  code : Int
deriving DecidableEq

/-- The call a receiver observes: either `set_value` with the forwarded
values (at most one, per the `static_assert` in the source), or `set_error`
with an exception pointer wrapping an `mpi_exception`. -/
inductive ReceiverSignal (α : Type)
  | set_value (vals : Option α)
  | set_error (e : mpi_exception)
deriving DecidableEq

/-- The helper `set_value_request_callback_helper(mpi_status, r, ts...)`
from the source: if `mpi_status == MPI_SUCCESS` it calls
`set_value(r, ts...)`, otherwise it calls
`set_error(r, make_exception_ptr(mpi_exception(mpi_status)))`. -/
def set_value_request_callback_helper {α : Type} (mpi_status : Int)
    (ts : Option α) : ReceiverSignal α :=
  if mpi_status = MPI_SUCCESS then
    ReceiverSignal.set_value ts
  else
    ReceiverSignal.set_error { code := mpi_status }

end HpxMpi

/-! ## Theorems

Each claim of the specification is settled by one theorem below, stated
over the definitions above.
-/

namespace HpxCoroutines

/-- C1 (code bug exhibit): the source documentation (`context_impl.hpp`
lines 70-71) declares a default-constructed `ContextImplBase` to be "in an
initialized state", contradicting the claim (and the rest of the same
documentation block, which calls the `from` argument of `swap_context`
"an uninitialized ContextImplBase that will be initialized by a
swap_context" and describes a `ContextImplBase` as an "empty temporary
context").  Evaluated at the failing input — a default-constructed handle
in a world where nothing has ever been saved — the handle carries the
documented `initialized` flag, yet it designates no live suspend point:
it is not usable as the resume-into target of any switch, exactly as if it
were uninitialized. -/
theorem default_handle_doc_bug :
    defaultConstructedHandle.initialized = true ∧
    resumable initialWorld defaultConstructedHandle = false ∧
    ∀ fr, swap_context initialWorld fr defaultConstructedHandle = none :=
  ⟨rfl, rfl, fun _ => rfl⟩

/-- C2: `swap_context(from, to)` with an initialized, live `to` succeeds:
the caller's current machine state is saved into `from` — which thereby
becomes initialized and designates a live suspend point — and the state
referenced by `to` is restored (it becomes the current flow).  The incoming
contents of `from` are irrelevant (it may start uninitialized).  If `to` is
uninitialized, the switch is undefined behaviour (`none`). -/
theorem swap_context_contract (w : World) (fr toh : ContextImplBase) :
    (toh.initialized = false → swap_context w fr toh = none) ∧
    (resumable w toh = true →
      ∃ w' fr', swap_context w fr toh = some (w', fr') ∧
        fr'.initialized = true ∧
        w'.current = toh.point ∧
        fr'.point ∈ w'.live ∧
        ∀ fr2, swap_context w fr2 toh = some (w', fr')) := by
  constructor
  · intro hinit
    have hres : resumable w toh = false := by
      simp [resumable, hinit]
    simp [swap_context, hres]
  · intro hres
    refine ⟨{ current := toh.point
            , live := w.nextPoint :: w.live.filter (fun p => p != toh.point)
            , nextPoint := w.nextPoint + 1 }
          , { initialized := true, point := w.nextPoint }
          , ?_, rfl, rfl, ?_, ?_⟩
    · simp [swap_context, hres]
    · exact List.mem_cons_self _ _
    · intro fr2
      simp [swap_context, hres]

/-- C2 witness: a concrete successful switch into live point 5 of a world,
started from an uninitialized `from` handle. -/
theorem swap_context_contract_witness :
    resumable { current := 0, live := [5], nextPoint := 6 }
      { initialized := true, point := 5 } = true ∧
    ∃ w' fr',
      swap_context { current := 0, live := [5], nextPoint := 6 }
          { initialized := false, point := 0 }
          { initialized := true, point := 5 } = some (w', fr') ∧
      fr'.initialized = true ∧
      w'.current = ({ initialized := true, point := 5 } : ContextImplBase).point ∧
      fr'.point ∈ w'.live ∧
      ∀ fr2, swap_context { current := 0, live := [5], nextPoint := 6 } fr2
          { initialized := true, point := 5 } = some (w', fr') :=
  ⟨by decide,
    (swap_context_contract { current := 0, live := [5], nextPoint := 6 }
      { initialized := false, point := 0 }
      { initialized := true, point := 5 }).2 (by decide)⟩

/-- C3: once a handle value has been used as the resume-into target of a
successful `swap_context`, every copy of that value (any handle designating
the same suspend point) is stale in the resulting world: it is no longer
resumable, and using it as the resume-into target of a further switch is
undefined behaviour (`none`). -/
theorem stale_copy_rejected (w w' : World) (fr fr' toh copy : ContextImplBase)
    (hwf : WorldWF w)
    (hswap : swap_context w fr toh = some (w', fr'))
    (hcopy : copy.point = toh.point) :
    resumable w' copy = false ∧
    ∀ fr2, swap_context w' fr2 copy = none := by
  cases hres : resumable w toh with
  | false =>
      rw [swap_context] at hswap
      rw [hres] at hswap
      simp at hswap
  | true =>
      rw [swap_context] at hswap
      rw [hres] at hswap
      simp only [if_true] at hswap
      rw [Option.some_inj, Prod.mk.injEq] at hswap
      obtain ⟨hw, _⟩ := hswap
      have hmem : toh.point ∈ w.live := by
        have h := hres
        simp only [resumable, Bool.and_eq_true, decide_eq_true_eq] at h
        exact h.2
      have hlt : toh.point < w.nextPoint := hwf _ hmem
      have hnot : toh.point ∉
          (w.nextPoint :: w.live.filter (fun p => p != toh.point)) := by
        intro hc
        rcases List.mem_cons.mp hc with h1 | h2
        · exact absurd h1 (Nat.ne_of_lt hlt)
        · have hf := (List.mem_filter.mp h2).2
          simp at hf
      constructor
      · rw [← hw]
        simp [resumable, hcopy, hnot]
      · intro fr2
        rw [← hw]
        simp [swap_context, resumable, hcopy, hnot]

/-- C3 witness: in a well-formed world with live point 5, switching into a
handle for point 5 leaves its copy no longer resumable. -/
theorem stale_copy_rejected_witness :
    (WorldWF { current := 0, live := [5], nextPoint := 6 } ∧
     swap_context { current := 0, live := [5], nextPoint := 6 }
         { initialized := false, point := 0 }
         { initialized := true, point := 5 } =
       some ({ current := 5, live := [6], nextPoint := 7 },
             { initialized := true, point := 6 })) ∧
    resumable { current := 5, live := [6], nextPoint := 7 }
      { initialized := true, point := 5 } = false :=
  ⟨⟨by decide, by decide⟩,
    (stale_copy_rejected
      { current := 0, live := [5], nextPoint := 6 }
      { current := 5, live := [6], nextPoint := 7 }
      { initialized := false, point := 0 }
      { initialized := true, point := 6 }
      { initialized := true, point := 5 }
      { initialized := true, point := 5 }
      (by decide) (by decide) rfl).1⟩

end HpxCoroutines

namespace HpxCoroutines

/-- C4: the backend-selection preprocessor chain.  Defining both the
generic-context and the fiber-based selections simultaneously is a
build-time error; absence of all four backends is a build-time fatal
configuration error; otherwise the chain selects exactly one backend, and
the selected backend is one whose availability condition holds on the
target platform. -/
theorem backend_selection_exactly_one (c : PlatformConfig) :
    (c.have_generic_context = true ∧ c.have_fiber_based = true →
      select_default_context_impl c = SelectResult.errorBothDefined) ∧
    (anyBackendAvailable c = false →
      select_default_context_impl c = SelectResult.errorNoBackend) ∧
    ((c.have_generic_context = true → c.have_fiber_based = false) →
      anyBackendAvailable c = true →
      ∃ b, select_default_context_impl c = SelectResult.selected b ∧
        backendAvailable c b = true ∧
        ∀ b', select_default_context_impl c = SelectResult.selected b' →
          b' = b) := by
  obtain ⟨g, f, l, bq, pc, s3, px⟩ := c
  cases g <;> cases f <;> cases l <;> cases bq <;> cases pc <;> cases s3 <;>
    cases px <;> decide

/-- C4 witness: on a plain Linux x86 configuration the chain selects the
Linux x86 assembly backend, and on a configuration defining both the
generic-context and fiber-based selections the build fails. -/
theorem backend_selection_exactly_one_witness :
    (∃ b, select_default_context_impl
        { have_generic_context := false, have_fiber_based := false
        , is_linux := true, is_bgq := false, is_powerpc := false
        , is_s390x := false, posix_version := true } =
          SelectResult.selected b ∧
      backendAvailable
        { have_generic_context := false, have_fiber_based := false
        , is_linux := true, is_bgq := false, is_powerpc := false
        , is_s390x := false, posix_version := true } b = true ∧
      ∀ b', select_default_context_impl
        { have_generic_context := false, have_fiber_based := false
        , is_linux := true, is_bgq := false, is_powerpc := false
        , is_s390x := false, posix_version := true } =
          SelectResult.selected b' → b' = b) ∧
    select_default_context_impl
      { have_generic_context := true, have_fiber_based := true
      , is_linux := false, is_bgq := false, is_powerpc := false
      , is_s390x := false, posix_version := false } =
        SelectResult.errorBothDefined :=
  ⟨(backend_selection_exactly_one
      { have_generic_context := false, have_fiber_based := false
      , is_linux := true, is_bgq := false, is_powerpc := false
      , is_s390x := false, posix_version := true }).2.2
        (by decide) (by decide),
   (backend_selection_exactly_one
      { have_generic_context := true, have_fiber_based := true
      , is_linux := false, is_bgq := false, is_powerpc := false
      , is_s390x := false, posix_version := false }).1 (by decide)⟩

/-- C5: no transition leaves a terminal state.  A `resume()` on a coroutine
that is already `running`, `completed` or `failed` reports the fatal usage
error and leaves the coroutine unchanged, and any number of further
`resume()` calls still leaves it unchanged — for any coroutine state
however it was reached. -/
theorem terminal_states_closed (c : Coroutine) (n : Nat)
    (h : c.status = CoroStatus.running ∨ c.status = CoroStatus.completed ∨
         c.status = CoroStatus.failed) :
    resume c = (ResumeResult.usage_error, c) ∧ runResumes n c = c := by
  have hr : resume c = (ResumeResult.usage_error, c) := by
    obtain ⟨st, p, o⟩ := c
    rcases h with h | h | h <;> (cases h; rfl)
  refine ⟨hr, ?_⟩
  induction n with
  | zero => rfl
  | succ n ih =>
      have hs : stepCoroutine c = c := by rw [stepCoroutine, hr]
      calc runResumes (n + 1) c = runResumes n (stepCoroutine c) := rfl
        _ = runResumes n c := by rw [hs]
        _ = c := ih

/-- C5 witness: a completed coroutine rejects three further resumes without
side effects. -/
theorem terminal_states_closed_witness :
    ((({ status := CoroStatus.completed, pending := [], outcome := none }
        : Coroutine).status = CoroStatus.running ∨
      ({ status := CoroStatus.completed, pending := [], outcome := none }
        : Coroutine).status = CoroStatus.completed ∨
      ({ status := CoroStatus.completed, pending := [], outcome := none }
        : Coroutine).status = CoroStatus.failed) ∧
     resume { status := CoroStatus.completed, pending := [], outcome := none } =
       (ResumeResult.usage_error,
        { status := CoroStatus.completed, pending := [], outcome := none }) ∧
     runResumes 3
       { status := CoroStatus.completed, pending := [], outcome := none } =
       { status := CoroStatus.completed, pending := [], outcome := none }) :=
  ⟨by decide,
    (terminal_states_closed
      { status := CoroStatus.completed, pending := [], outcome := none } 3
      (by decide)).1,
    (terminal_states_closed
      { status := CoroStatus.completed, pending := [], outcome := none } 3
      (by decide)).2⟩

end HpxCoroutines

namespace HpxCoroutines

/-- C6: constructing a ContextImpl from `(f, stack_size)` binds `f` to the
context without starting to run it; `f` is entered only when the context is
first activated; the stack-size hint `-1` resolves to the (positive)
platform default, while a nonnegative hint is honoured rather than
truncated. -/
theorem construct_binds_without_running (f : Nat → Nat) (stack_size : Int)
    (arg : Nat) :
    (mkContextImpl f stack_size).callable = f ∧
    (mkContextImpl f stack_size).entered = false ∧
    (stack_size = -1 →
      (mkContextImpl f stack_size).stackSize = defaultStackSize ∧
      0 < defaultStackSize) ∧
    (0 ≤ stack_size →
      (mkContextImpl f stack_size).stackSize = stack_size.toNat) ∧
    activateFirst (mkContextImpl f stack_size) arg =
      ({ callable := f, stackSize := allocateStack stack_size
       , entered := true }, f arg) := by
  refine ⟨rfl, rfl, ?_, ?_, rfl⟩
  · intro h
    subst h
    exact ⟨rfl, by decide⟩
  · intro h0
    have hne : stack_size ≠ -1 := by omega
    simp [mkContextImpl, allocateStack, hne]

/-- C6 witness: construction with the unspecified hint `-1` yields the
positive platform default stack size. -/
theorem construct_binds_without_running_witness :
    (-1 : Int) = -1 ∧
    ((mkContextImpl Nat.succ (-1)).stackSize = defaultStackSize ∧
     0 < defaultStackSize) :=
  ⟨rfl, (construct_binds_without_running Nat.succ (-1) 0).2.2.1 rfl⟩

/-- A `resume()` behaves identically on a `suspended` coroutine and on the
corresponding `created` one (first resume and later resumes follow the
same created/suspended entry of the state machine). -/
theorem resume_suspended_eq_created (p : List Nat) (o : Option Nat) :
    resume { status := CoroStatus.suspended, pending := p, outcome := o } =
    resume { status := CoroStatus.created, pending := p, outcome := o } := by
  cases p <;> cases o <;> rfl

/-- Resume traces agree from the `suspended` and `created` entry states. -/
theorem resumeTrace_suspended_eq_created (n : Nat) (p : List Nat)
    (o : Option Nat) :
    resumeTrace n { status := CoroStatus.suspended, pending := p, outcome := o } =
    resumeTrace n { status := CoroStatus.created, pending := p, outcome := o } := by
  cases n with
  | zero => rfl
  | succ n =>
      simp only [resumeTrace, stepCoroutine, resume_suspended_eq_created]

/-- Iterated resumes agree from the `suspended` and `created` entry states
(for at least one resume). -/
theorem runResumes_suspended_eq_created (n : Nat) (p : List Nat)
    (o : Option Nat) :
    runResumes (n + 1)
      { status := CoroStatus.suspended, pending := p, outcome := o } =
    runResumes (n + 1)
      { status := CoroStatus.created, pending := p, outcome := o } := by
  simp only [runResumes, stepCoroutine, resume_suspended_eq_created]

/-- A coroutine whose callable yields `vs` and then finishes with outcome
`o` produces, over `vs.length + 2` resumes, exactly the yielded values in
order, then the terminal report, then a rejection; after `vs.length + 1`
resumes it sits in the matching terminal state. -/
theorem resumeTrace_mkCoroutine (vs : List Nat) (o : Option Nat) :
    resumeTrace (vs.length + 2) (mkCoroutine vs o) =
      vs.map ResumeResult.suspended ++
        [(match o with
          | none => ResumeResult.completed
          | some e => ResumeResult.failed e),
         ResumeResult.usage_error] ∧
    runResumes (vs.length + 1) (mkCoroutine vs o) =
      { status := (match o with
                   | none => CoroStatus.completed
                   | some _ => CoroStatus.failed)
      , pending := [], outcome := o } := by
  induction vs with
  | nil => cases o <;> exact ⟨rfl, rfl⟩
  | cons v rest ih =>
      constructor
      · show ResumeResult.suspended v ::
          resumeTrace (rest.length + 2)
            { status := CoroStatus.suspended, pending := rest, outcome := o } = _
        rw [resumeTrace_suspended_eq_created]
        rw [show ({ status := CoroStatus.created, pending := rest
                  , outcome := o } : Coroutine) = mkCoroutine rest o from rfl]
        rw [ih.1]
        simp
      · show runResumes (rest.length + 1)
          { status := CoroStatus.suspended, pending := rest, outcome := o } = _
        cases rest with
        | nil =>
            cases o <;> rfl
        | cons v2 rest2 =>
            show runResumes (rest2.length + 1 + 1)
              { status := CoroStatus.suspended, pending := v2 :: rest2
              , outcome := o } = _
            rw [runResumes_suspended_eq_created]
            exact ih.2

end HpxCoroutines

namespace HpxCoroutines

/-- C8: round-trip value passing.  A coroutine whose callable yields the
finite sequence `vs` and then returns normally, resumed repeatedly,
reports exactly that sequence in order, one value per resume/yield pair,
then `completed`, and a further resume is rejected.  In particular the
linear-pipeline scenario for yields `1, 2, 3`. -/
theorem round_trip_value_passing (vs : List Nat) :
    resumeTrace (vs.length + 2) (mkCoroutine vs none) =
      vs.map ResumeResult.suspended ++
        [ResumeResult.completed, ResumeResult.usage_error] ∧
    resumeTrace 5 (mkCoroutine [1, 2, 3] none) =
      [ResumeResult.suspended 1, ResumeResult.suspended 2,
       ResumeResult.suspended 3, ResumeResult.completed,
       ResumeResult.usage_error] :=
  ⟨(resumeTrace_mkCoroutine vs none).1, by decide⟩

/-- C9: error capture and fidelity.  A coroutine whose callable yields `vs`
and then raises the error payload `e` reports the yields, then `failed e` —
the very payload that was raised, re-surfaced to the `resume()` call that
observes the transition — then rejects any further resume; the coroutine
itself ends in the terminal `failed` state with the captured cause still
attached. -/
theorem error_captured_and_resurfaced (vs : List Nat) (e : Nat) :
    resumeTrace (vs.length + 2) (mkCoroutine vs (some e)) =
      vs.map ResumeResult.suspended ++
        [ResumeResult.failed e, ResumeResult.usage_error] ∧
    runResumes (vs.length + 1) (mkCoroutine vs (some e)) =
      { status := CoroStatus.failed, pending := [], outcome := some e } :=
  ⟨(resumeTrace_mkCoroutine vs (some e)).1,
   (resumeTrace_mkCoroutine vs (some e)).2⟩

end HpxCoroutines

namespace HpxMpi

/-- C10: the MPI completion callback helper invokes `set_value` with the
forwarded values exactly when the delivered status equals `MPI_SUCCESS`;
for any other status it invokes `set_error` with an exception wrapping
`mpi_exception` of that status; and it never signals both on one
invocation. -/
theorem callback_value_iff_success (s : Int) (ts : Option Nat) :
    (set_value_request_callback_helper s ts = ReceiverSignal.set_value ts ↔
      s = MPI_SUCCESS) ∧
    (s ≠ MPI_SUCCESS →
      set_value_request_callback_helper s ts =
        ReceiverSignal.set_error { code := s }) ∧
    ∀ v e, ¬(set_value_request_callback_helper s ts =
               ReceiverSignal.set_value v ∧
             set_value_request_callback_helper s ts =
               ReceiverSignal.set_error e) := by
  refine ⟨⟨?_, ?_⟩, ?_, ?_⟩
  · intro h
    by_contra hs
    simp [set_value_request_callback_helper, hs] at h
  · intro h
    simp [set_value_request_callback_helper, h]
  · intro h
    simp [set_value_request_callback_helper, h]
  · rintro v e ⟨h1, h2⟩
    rw [h1] at h2
    exact ReceiverSignal.noConfusion h2

/-- C10 witness: a failing status `1` produces `set_error` wrapping
`mpi_exception 1`, not `set_value`. -/
theorem callback_value_iff_success_witness :
    (1 : Int) ≠ MPI_SUCCESS ∧
    set_value_request_callback_helper 1 (some 7) =
      ReceiverSignal.set_error { code := 1 } :=
  ⟨by decide, (callback_value_iff_success 1 (some 7)).2.1 (by decide)⟩

end HpxMpi
